import Mathlib

/-!
Shallow embedding of the AlooTaxi ride-hailing client core: fare calculation
(CustomerView.tsx calculatePrice over the settings snapshot of
SettingsContext.tsx), OSRM route resolution with the snap-to-road fallback
(getRouteOSRM and snapToRoad of the osrm service), Nominatim reverse geocoding
(reverseGeocodeNominatim), the driver-side trip handlers of DriverView.tsx
(updateTripStatus, handleAcceptRequest, handleDeclineRequest), and the
asynchronous route recomputation state of CustomerView.tsx.

JavaScript numbers are modelled as exact rationals; Math.round is
floor (x + 1/2), which for the nonnegative fare values coincides with
rounding to nearest with ties away from zero.
-/

/-- JavaScript Math.round: round to the nearest integer, ties toward
positive infinity. -/
def jsRound (q : ℚ) : ℤ := ⌊q + 1 / 2⌋

/-- Modelled from the spec: rounding to the nearest integer currency unit with
ties away from zero (section 4.3 of the spec; used to compare against the
source's Math.round). -/
def roundTiesAway (q : ℚ) : ℤ := if 0 ≤ q then ⌊q + 1 / 2⌋ else -⌊-q + 1 / 2⌋

/-- Left-pad a digit string with zeros to five characters. -/
def padZeros5 (s : String) : String :=
  String.mk (List.replicate (5 - s.length) '0') ++ s

/-- JavaScript Number.prototype.toFixed with five fraction digits, applied to
the exact rational value: the sign of the argument, then the nearest multiple
of 1/100000 of its magnitude (ties rounded up) written with exactly five
fraction digits. -/
def toFixed5 (q : ℚ) : String :=
  let n : ℕ := (⌊|q| * 100000 + 1 / 2⌋).toNat
  (if q < 0 then "-" else "")
    ++ toString (n / 100000) ++ "." ++ padZeros5 (toString (n % 100000))

/-- The closed vehicle class enumeration of types.ts. The TypeScript enum
values are Arabic display strings; classes are identified here by their enum
keys, which is faithful because the enum is a bijection onto its values. -/
inductive VehicleType where
  | Regular
  | AC
  | Public
  | VIP
  | Microbus
  | Motorcycle
deriving DecidableEq, Repr

/-- Object.values of the VehicleType enum, in declaration order, as iterated
by the vehicle buttons of CustomerView.tsx. -/
def vehicleTypeValues : List VehicleType :=
  [VehicleType.Regular, VehicleType.AC, VehicleType.Public, VehicleType.VIP,
   VehicleType.Microbus, VehicleType.Motorcycle]

/-- AppSettings of types.ts. vehicle_multipliers yields the multiplier of a
class when the class is a key of the mapping and none when the key is absent
(undefined in TypeScript). -/
structure AppSettings where
  id : ℤ
  base_fare_syp : ℚ
  per_km_fare_syp : ℚ
  app_commission_percentage : ℚ
  vehicle_multipliers : VehicleType → Option ℚ
  manager_phone : String

/-- defaultSettings of SettingsContext.tsx. -/
def defaultSettings : AppSettings where
  id := 1
  base_fare_syp := 2000
  per_km_fare_syp := 500
  app_commission_percentage := 15
  vehicle_multipliers := fun v =>
    match v with
    | VehicleType.Regular => some 1
    | VehicleType.AC => some (6 / 5)
    | VehicleType.Public => some (4 / 5)
    | VehicleType.VIP => some 2
    | VehicleType.Microbus => some (3 / 2)
    | VehicleType.Motorcycle => some (3 / 5)
  manager_phone := "0912345678"

/-- calculatePrice of CustomerView.tsx: returns 0 when the distance state is
0 (the component treats that as no route yet); otherwise
Math.round((base_fare_syp + distanceInKm * per_km_fare_syp) * multiplier),
where the JavaScript expression vehicle_multipliers[vehicle] || 1 substitutes
1 both for an absent (undefined) and for a zero multiplier. -/
def calculatePrice (settings : AppSettings) (distance : ℚ) (vehicle : VehicleType) : ℤ :=
  if distance = 0 then 0
  else
    let distanceInKm := distance / 1000
    let multiplier : ℚ :=
      match settings.vehicle_multipliers vehicle with
      | some m => if m = 0 then 1 else m
      | none => 1
    jsRound ((settings.base_fare_syp + distanceInKm * settings.per_km_fare_syp) * multiplier)

/-- VEHICLE_ICONS of constants.ts assigns an icon to every vehicle class, so
the icon guard of the vehicle buttons never filters anything. -/
def vehicleHasIcon : VehicleType → Bool := fun _ => true

/-- The vehicle classes for which CustomerView.tsx renders a quote button:
Object.values(VehicleType) minus the classes where the render guard returns
null because the icon or the multiplier entry is undefined. -/
def renderedVehicleOptions (settings : AppSettings) : List VehicleType :=
  vehicleTypeValues.filter
    (fun v => vehicleHasIcon v && (settings.vehicle_multipliers v).isSome)

/-- TripStatus of types.ts. -/
inductive TripStatus where
  | requested
  | accepted
  | driver_arrived
  | in_progress
  | completed
  | cancelled
  | scheduled
deriving DecidableEq, Repr

/-- A geographic coordinate as the osrm service passes it around. -/
structure LngLat where
  lng : ℚ
  lat : ℚ
deriving DecidableEq, Repr

/-- Trip of types.ts. -/
structure Trip where
  id : String
  customer_id : String
  driver_id : Option String
  status : TripStatus
  pickup_location : LngLat
  dropoff_location : LngLat
  pickup_address : String
  dropoff_address : String
  distance_meters : ℚ
  estimated_cost : ℚ
  final_cost : Option ℚ
  vehicle_type : VehicleType
  created_at : String
  scheduled_at : Option String
  completed_at : Option String
deriving DecidableEq, Repr

/-- The driver availability state of DriverView.tsx. -/
inductive DriverAvailability where
  | offline
  | online
  | in_trip
deriving DecidableEq, Repr

/-- The React state DriverView.tsx keeps for the trip handlers. -/
structure DriverViewState where
  currentTrip : Option Trip
  incomingRequest : Option Trip
  status : DriverAvailability
deriving DecidableEq, Repr

/-- The status values updateTripStatus of DriverView.tsx accepts: its
TypeScript parameter type is the union of exactly these three strings, so a
transition to any other status cannot be requested through it. -/
inductive UpdatableStatus where
  | driver_arrived
  | in_progress
  | completed
deriving DecidableEq, Repr

def UpdatableStatus.toTripStatus : UpdatableStatus → TripStatus
  | UpdatableStatus.driver_arrived => TripStatus.driver_arrived
  | UpdatableStatus.in_progress => TripStatus.in_progress
  | UpdatableStatus.completed => TripStatus.completed

/-- updateTripStatus of DriverView.tsx: when a current trip exists, set the
requested status on it unconditionally, with no validation against the
previous status. The delayed reset scheduled after a completed update is a
separate timer callback (modelled by completedTripReset below) and does not
change the immediate effect. -/
def updateTripStatus (s : DriverViewState) (newStatus : UpdatableStatus) : DriverViewState :=
  match s.currentTrip with
  | some t => { s with currentTrip := some { t with status := newStatus.toTripStatus } }
  | none => s

/-- The timer callback updateTripStatus schedules three seconds after a
completed update: clear the current trip and go back online. -/
def completedTripReset (s : DriverViewState) : DriverViewState :=
  { s with currentTrip := none, status := DriverAvailability.online }

/-- handleAcceptRequest of DriverView.tsx. -/
def handleAcceptRequest (s : DriverViewState) : DriverViewState :=
  match s.incomingRequest with
  | some r =>
      { currentTrip := some { r with status := TripStatus.accepted }
        incomingRequest := none
        status := DriverAvailability.in_trip }
  | none => s

/-- handleDeclineRequest of DriverView.tsx: clear the incoming request and
nothing else. -/
def handleDeclineRequest (s : DriverViewState) : DriverViewState :=
  { s with incomingRequest := none }

/-- The transition control DriverView.tsx renders for each current trip
status: an accepted trip offers only the driver_arrived button, driver_arrived
offers only in_progress, in_progress offers only completed, and no other
status renders a transition control. -/
def offeredTarget : TripStatus → Option UpdatableStatus
  | TripStatus.accepted => some UpdatableStatus.driver_arrived
  | TripStatus.driver_arrived => some UpdatableStatus.in_progress
  | TripStatus.in_progress => some UpdatableStatus.completed
  | _ => none

/-- Modelled from the spec: the trip status transition graph of section 4.4. -/
def specAllowedTransition : TripStatus → TripStatus → Bool
  | TripStatus.requested, TripStatus.accepted => true
  | TripStatus.requested, TripStatus.scheduled => true
  | TripStatus.requested, TripStatus.cancelled => true
  | TripStatus.scheduled, TripStatus.accepted => true
  | TripStatus.scheduled, TripStatus.cancelled => true
  | TripStatus.accepted, TripStatus.driver_arrived => true
  | TripStatus.accepted, TripStatus.cancelled => true
  | TripStatus.driver_arrived, TripStatus.in_progress => true
  | TripStatus.in_progress, TripStatus.completed => true
  | _, _ => false

/-- The possible outcomes of offering a trip to a candidate driver
(spec section 4.5). -/
inductive OfferOutcome where
  | accepted (driverId : String)
  | declined
  | timedOut
deriving DecidableEq, Repr

inductive DispatchError where
  | noDriversAvailable
deriving DecidableEq, Repr

/-- Modelled from the spec: the source has no DispatchCoordinator component
(customer-side acceptance is a fixed-delay simulation in handleRequestTrip of
CustomerView.tsx, and the driver-side decline merely clears the local incoming
request), so the coordinator's handling of a finished offer is modelled from
spec section 4.5: acceptance binds the driver, while Declined and TimedOut
either return the Trip to Requested with no driver bound or fail with
NoDriversAvailable when no further candidates exist. -/
def coordinatorAfterOffer (trip : Trip) (outcome : OfferOutcome)
    (remaining : List String) : Except DispatchError Trip :=
  match outcome with
  | OfferOutcome.accepted d =>
      Except.ok { trip with status := TripStatus.accepted, driver_id := some d }
  | OfferOutcome.declined =>
      match remaining with
      | [] => Except.error DispatchError.noDriversAvailable
      | _ :: _ => Except.ok { trip with status := TripStatus.requested, driver_id := none }
  | OfferOutcome.timedOut =>
      match remaining with
      | [] => Except.error DispatchError.noDriversAvailable
      | _ :: _ => Except.ok { trip with status := TripStatus.requested, driver_id := none }

/-- The route object of a parsed OSRM route response: the GeoJSON geometry
coordinates in wire order (longitude first), the total distance in meters and
the total duration in seconds. -/
structure OSRMRouteObj where
  coordinates : List (ℚ × ℚ)
  distance : ℚ
  duration : ℚ
deriving DecidableEq, Repr

/-- The parsed JSON body of a response of the OSRM route endpoint. -/
structure RouteBody where
  code : String
  routes : List OSRMRouteObj
deriving DecidableEq, Repr

/-- The parsed JSON body of a response of the OSRM nearest endpoint; a
waypoint is represented by its location pair in wire order (longitude
first). -/
structure NearestBody where
  code : String
  waypoints : List (ℚ × ℚ)
deriving DecidableEq, Repr

/-- An HTTP response as the osrm service consumes it: the ok flag and status
of fetch, and the parsed JSON body, none meaning the body is not valid JSON
so that json() throws. A fetch body can be read only once; getRouteOSRM below
tracks explicitly whether the body of the response at hand has already been
consumed, because Response.json() and Response.text() both read it and a
second read rejects with a TypeError. -/
structure FetchResponse (β : Type) where
  ok : Bool
  status : Nat
  body : Option β
deriving DecidableEq, Repr

/-- The external OSRM collaborator: the primary route endpoint and the
nearest (snap) endpoint, as functions from request coordinates to the
response. Within one getRouteOSRM invocation no two route requests carry the
same coordinate pair (the retry is guarded to differ from the original), so a
deterministic function faithfully represents the collaborator. -/
structure OSRMEnv where
  route : LngLat → LngLat → FetchResponse RouteBody
  nearest : LngLat → FetchResponse NearestBody

/-- snapToRoad of the osrm service: query the nearest endpoint and return the
snapped coordinate, or the original point when the response is not ok, the
body is not JSON, the code is not Ok, or no waypoint is present. -/
def snapToRoad (env : OSRMEnv) (point : LngLat) : LngLat :=
  let response := env.nearest point
  if response.ok = false then point
  else
    match response.body with
    | none => point
    | some data =>
      if data.code = "Ok" then
        match data.waypoints with
        | (lng, lat) :: _ => { lng := lng, lat := lat }
        | [] => point
      else point

/-- The errors getRouteOSRM can reject with. bodyConsumed is the TypeError a
second read of a fetch Response body raises; jsonParseFailure is the
SyntaxError of json() on a non-JSON ok body. -/
inductive RouteError where
  | noRouteAfterSnapping
  | failedToFetch
  | noRouteByOSRM
  | bodyConsumed
  | jsonParseFailure
deriving DecidableEq, Repr

/-- The message of each error, as the code of getRouteOSRM throws it (the
bodyConsumed and jsonParseFailure messages are the browser's TypeError and
SyntaxError texts, which mention neither of the two phrases the caller greps
for). -/
def routeErrorMessage : RouteError → String
  | RouteError.noRouteAfterSnapping => "No route found even after snapping to nearest roads."
  | RouteError.failedToFetch => "Failed to fetch route from OSRM"
  | RouteError.noRouteByOSRM => "No route found by OSRM"
  | RouteError.bodyConsumed => "TypeError: body stream already read"
  | RouteError.jsonParseFailure => "SyntaxError: unexpected token"

/-- The successful return value of getRouteOSRM: the geometry with every pair
swapped to latitude first, the distance in meters and the duration in
seconds. The record has exactly these three fields; no fallback indicator is
part of it. -/
structure RouteData where
  geometry : List (ℚ × ℚ)
  distance : ℚ
  duration : ℚ
deriving DecidableEq, Repr

/-- The requests one getRouteOSRM invocation issues, in order: the coordinate
pairs sent to the route endpoint and the points sent to the nearest
endpoint. -/
structure Trace where
  routeCalls : List (LngLat × LngLat)
  nearestCalls : List LngLat
deriving DecidableEq, Repr

/-- The NoRoute fallback block of getRouteOSRM: starting from the response of
the primary call, produce the response the final checks run on, whether that
response's body has already been consumed by the json() read inside the
block, and the requests issued so far. The snap results are compared with the
originals and the retry is issued only when at least one coordinate
changed. -/
def fallbackStep (env : OSRMEnv) (start stop : LngLat) :
    FetchResponse RouteBody × Bool × Trace :=
  let resp1 := env.route start stop
  if resp1.ok = false ∧ resp1.status = 400 then
    match resp1.body with
    | none => (resp1, true, ⟨[(start, stop)], []⟩)
    | some errorData =>
      if errorData.code = "NoRoute" then
        let snappedStart := snapToRoad env start
        let snappedEnd := snapToRoad env stop
        if snappedStart ≠ start ∨ snappedEnd ≠ stop then
          (env.route snappedStart snappedEnd, false,
            ⟨[(start, stop), (snappedStart, snappedEnd)], [start, stop]⟩)
        else
          (resp1, true, ⟨[(start, stop)], [start, stop]⟩)
      else (resp1, true, ⟨[(start, stop)], []⟩)
  else (resp1, false, ⟨[(start, stop)], []⟩)

/-- The tail of getRouteOSRM after the fallback block: the final ok check
with its attempt to surface a NoRoute body as the specific error (reading the
body again, which raises a TypeError when the fallback block already consumed
it), then the parse of the successful body and the geometry swap. -/
def finishRoute (response : FetchResponse RouteBody) (consumed : Bool) (tr : Trace) :
    Except RouteError RouteData × Trace :=
  if response.ok = false then
    if consumed then (Except.error RouteError.bodyConsumed, tr)
    else
      match response.body with
      | some b =>
          if b.code = "NoRoute" then (Except.error RouteError.noRouteAfterSnapping, tr)
          else (Except.error RouteError.failedToFetch, tr)
      | none => (Except.error RouteError.failedToFetch, tr)
  else
    match response.body with
    | none => (Except.error RouteError.jsonParseFailure, tr)
    | some data =>
      if data.code = "Ok" then
        match data.routes with
        | [] => (Except.error RouteError.noRouteByOSRM, tr)
        | rt :: _ =>
          (Except.ok { geometry := rt.coordinates.map (fun c => (c.2, c.1)),
                       distance := rt.distance, duration := rt.duration }, tr)
      else (Except.error RouteError.noRouteByOSRM, tr)

/-- getRouteOSRM of the osrm service, with the requests it issues recorded in
the returned trace. -/
def getRouteOSRM (env : OSRMEnv) (start stop : LngLat) :
    Except RouteError RouteData × Trace :=
  let s := fallbackStep env start stop
  finishRoute s.1 s.2.1 s.2.2

/-- The parsed JSON body of a Nominatim reverse geocoding response:
display_name is none when the field is absent or null. -/
structure GeoBody where
  display_name : Option String
deriving DecidableEq, Repr

inductive GeoError where
  | failedToReverseGeocode
  | jsonParseFailure
deriving DecidableEq, Repr

/-- The coordinate-literal fallback string of reverseGeocodeNominatim:
latitude and longitude each fixed to five decimals, comma separated. -/
def coordLiteral (point : LngLat) : String :=
  toFixed5 point.lat ++ ", " ++ toFixed5 point.lng

/-- reverseGeocodeNominatim of the osrm service: throw on a non-ok response,
otherwise return display_name, or the coordinate literal when display_name is
falsy (absent, null, or the empty string, since the JavaScript fallback uses
the or operator). -/
def reverseGeocodeNominatim (response : FetchResponse GeoBody) (point : LngLat) :
    Except GeoError String :=
  if response.ok = false then Except.error GeoError.failedToReverseGeocode
  else
    match response.body with
    | none => Except.error GeoError.jsonParseFailure
    | some data =>
      match data.display_name with
      | some s => if s = "" then Except.ok (coordLiteral point) else Except.ok s
      | none => Except.ok (coordLiteral point)

/-- The customer trip status of CustomerView.tsx. -/
inductive CustTripStatus where
  | idle
  | pricing
  | requested
  | confirmed
  | ongoing
deriving DecidableEq, Repr

/-- The route-related React state of CustomerView.tsx. -/
structure CustomerRouteState where
  route : List (ℚ × ℚ)
  distance : ℚ
  duration : ℚ
  routeError : Option String
  tripStatus : CustTripStatus
  isCalculatingRoute : Bool
deriving DecidableEq, Repr

def initialCustomerRouteState : CustomerRouteState where
  route := []
  distance := 0
  duration := 0
  routeError := none
  tripStatus := CustTripStatus.idle
  isCalculatingRoute := false

/-- The generic route error message calculateRoute shows. -/
def msgRouteGeneric : String :=
  "تعذر حساب المسار. يرجى التحقق من اتصالك بالإنترنت."

/-- The message calculateRoute shows when the thrown message mentions a
missing route or a failed fetch. -/
def msgRouteNoPath : String :=
  "تعذر إيجاد مسار بين النقطتين المحددتين. يرجى التأكد من أن المواقع على طرق يمكن الوصول إليها."

/-- Whether the thrown message contains the substring No route found or the
substring Failed to fetch, per error case of getRouteOSRM (the TypeError and
SyntaxError texts contain neither). -/
def routeErrorMentionsNoRoute : RouteError → Bool
  | RouteError.noRouteAfterSnapping => true
  | RouteError.failedToFetch => true
  | RouteError.noRouteByOSRM => true
  | RouteError.bodyConsumed => false
  | RouteError.jsonParseFailure => false

def displayedRouteMessage (e : RouteError) : String :=
  if routeErrorMentionsNoRoute e then msgRouteNoPath else msgRouteGeneric

/-- The state updates the body of calculateRoute performs when its awaited
getRouteOSRM call settles: on success commit the geometry, distance and
duration and enter pricing, on failure record the user message and enter
pricing; both branches clear the calculating flag. The commit is
unconditional: the code holds no token to compare against. -/
def applyRouteCompletion (v : CustomerRouteState) (result : Except RouteError RouteData) :
    CustomerRouteState :=
  match result with
  | Except.ok rd =>
      { v with route := rd.geometry, distance := rd.distance, duration := rd.duration,
               tripStatus := CustTripStatus.pricing, isCalculatingRoute := false }
  | Except.error e =>
      { v with routeError := some (displayedRouteMessage e),
               tripStatus := CustTripStatus.pricing, isCalculatingRoute := false }

/-- A customer session with its in-flight route resolutions. The token and the
pending list are scheduler bookkeeping identifying which asynchronous
invocation a completion belongs to; they are not program data, and the
program state (view) never reads them. issued counts the calculateRoute
invocations started so far, so the invocation with token issued - 1 is the
latest one. -/
structure RouteSession where
  view : CustomerRouteState
  issued : Nat
  pending : List (Nat × LngLat × LngLat)
deriving DecidableEq, Repr

def initialRouteSession : RouteSession where
  view := initialCustomerRouteState
  issued := 0
  pending := []

/-- The asynchronous events of the route recomputation flow: a (debounced)
invocation of calculateRoute for a pickup and dropoff pair, and the
settlement of the awaited getRouteOSRM call of the invocation with the given
token. -/
inductive RouteEvent where
  | invoke (pickup dropoff : LngLat)
  | complete (token : Nat) (result : Except RouteError RouteData)

/-- One step of the route recomputation flow, from CustomerView.tsx: an
invocation performs the synchronous prologue of calculateRoute (set the
calculating flag, clear the error, the route, the distance and the duration)
and leaves the resolution in flight; a completion of an in-flight resolution
applies the commit unconditionally. A completion with an unknown token has no
invocation to resume and is ignored. -/
def sessionStep (s : RouteSession) (e : RouteEvent) : RouteSession :=
  match e with
  | RouteEvent.invoke p d =>
      { view := { s.view with isCalculatingRoute := true, routeError := none,
                              route := [], distance := 0, duration := 0 }
        issued := s.issued + 1
        pending := s.pending ++ [(s.issued, p, d)] }
  | RouteEvent.complete tok result =>
      if s.pending.any (fun x => x.1 == tok) then
        { view := applyRouteCompletion s.view result
          issued := s.issued
          pending := s.pending.filter (fun x => !(x.1 == tok)) }
      else s

def runRouteSession (s : RouteSession) (events : List RouteEvent) : RouteSession :=
  events.foldl sessionStep s

/-- Claim C1 (amended to strictly positive distance): for every settings
snapshot with nonnegative base and per-km fares, every distance strictly
greater than 0, and every vehicle class whose multiplier is present and
positive, calculatePrice returns the spec formula
round((baseFare + (d/1000) * perKmFare) * multiplier) with ties away from
zero. At distance 0 the code instead short-circuits to 0, see the
counterexample. -/
theorem fare_quote_formula_positive_distance (s : AppSettings) (d : ℚ) (v : VehicleType)
    (m : ℚ) (hd : 0 < d) (hb : 0 ≤ s.base_fare_syp) (hp : 0 ≤ s.per_km_fare_syp)
    (hm : s.vehicle_multipliers v = some m) (hmpos : 0 < m) :
    calculatePrice s d v
      = roundTiesAway ((s.base_fare_syp + d / 1000 * s.per_km_fare_syp) * m) := by
  have hd0 : d ≠ 0 := ne_of_gt hd
  have hm0 : m ≠ 0 := ne_of_gt hmpos
  have hkm : 0 ≤ d / 1000 := le_of_lt (div_pos hd (by norm_num))
  have harg : 0 ≤ (s.base_fare_syp + d / 1000 * s.per_km_fare_syp) * m :=
    mul_nonneg (add_nonneg hb (mul_nonneg hkm hp)) (le_of_lt hmpos)
  simp only [calculatePrice, hm, if_neg hd0, if_neg hm0, roundTiesAway, if_pos harg, jsRound]

/-- Claim C1 witness: the spec's concrete scenario 1 on the default settings,
through the theorem at distance 5000 for the Regular class, plus the two
concrete quote values. -/
theorem fare_quote_formula_positive_distance_witness :
    calculatePrice defaultSettings 5000 VehicleType.Regular
      = roundTiesAway ((defaultSettings.base_fare_syp
          + 5000 / 1000 * defaultSettings.per_km_fare_syp) * 1) ∧
    calculatePrice defaultSettings 5000 VehicleType.Regular = 4500 ∧
    calculatePrice defaultSettings 5000 VehicleType.VIP = 9000 := by
  refine ⟨fare_quote_formula_positive_distance defaultSettings 5000 VehicleType.Regular 1
      (by norm_num) (by norm_num [defaultSettings]) (by norm_num [defaultSettings]) rfl
      (by norm_num), ?_, ?_⟩
  · simp only [calculatePrice, defaultSettings, jsRound]
    norm_num
  · simp only [calculatePrice, defaultSettings, jsRound]
    norm_num

/-- Claim C1 counterexample: at distance 0 with the default settings the code
returns 0, while the claimed formula gives round(2000 * 1) = 2000. -/
theorem fare_quote_zero_distance_counterexample :
    calculatePrice defaultSettings 0 VehicleType.Regular = 0 ∧
    roundTiesAway ((defaultSettings.base_fare_syp
      + 0 / 1000 * defaultSettings.per_km_fare_syp) * 1) = 2000 ∧
    (0 : ℤ) ≠ 2000 := by
  refine ⟨by simp [calculatePrice], ?_, by decide⟩
  simp only [defaultSettings, roundTiesAway]
  norm_num

/-- Claim C3 (amended): a quote at distance 0 is defined and raises no error,
but the code returns 0 for every settings snapshot and vehicle class, not
round(baseFare * multiplier). -/
theorem fare_quote_zero_distance_returns_zero (s : AppSettings) (v : VehicleType) :
    calculatePrice s 0 v = 0 := by
  simp [calculatePrice]

/-- Claim C3 counterexample: with baseFare 2000 and multiplier 1 the claim
says the distance-0 quote is round(2000 * 1) = 2000; the code returns 0. -/
theorem fare_zero_distance_spec_counterexample :
    calculatePrice defaultSettings 0 VehicleType.Regular = 0 ∧
    roundTiesAway (defaultSettings.base_fare_syp * 1) = 2000 ∧
    (0 : ℤ) ≠ 2000 := by
  refine ⟨by simp [calculatePrice], ?_, by decide⟩
  simp only [defaultSettings, roundTiesAway]
  norm_num

/-- Claim C7 (amended): a vehicle class absent from vehicle_multipliers is
skipped from the rendered fare quotes by the undefined-multiplier guard, and
every class whose multiplier is present is still rendered, so quoting is not
aborted; but the multiplier lookup does not fail with an error: if
calculatePrice is evaluated on the absent class it substitutes multiplier 1
and returns a price. -/
theorem unknown_vehicle_class_skip (s : AppSettings) (v : VehicleType)
    (habsent : s.vehicle_multipliers v = none) :
    v ∉ renderedVehicleOptions s ∧
    (∀ w : VehicleType, (s.vehicle_multipliers w).isSome → w ∈ renderedVehicleOptions s) ∧
    (∀ d : ℚ, d ≠ 0 →
      calculatePrice s d v
        = jsRound ((s.base_fare_syp + d / 1000 * s.per_km_fare_syp) * 1)) := by
  refine ⟨?_, ?_, ?_⟩
  · intro hv
    have hpred := (List.mem_filter.1 hv).2
    simp [habsent, vehicleHasIcon] at hpred
  · intro w hw
    refine List.mem_filter.2 ⟨?_, ?_⟩
    · cases w <;> simp [vehicleTypeValues]
    · simp [vehicleHasIcon, hw]
  · intro d hd
    simp only [calculatePrice, habsent, if_neg hd]

/-- A settings snapshot whose multiplier mapping lacks the Motorcycle class. -/
def settingsNoMotorcycle : AppSettings :=
  { defaultSettings with
    vehicle_multipliers := fun v =>
      match v with
      | VehicleType.Motorcycle => none
      | w => defaultSettings.vehicle_multipliers w }

/-- Claim C7 witness: the theorem at the snapshot missing Motorcycle. -/
theorem unknown_vehicle_class_skip_witness :
    VehicleType.Motorcycle ∉ renderedVehicleOptions settingsNoMotorcycle ∧
    VehicleType.Regular ∈ renderedVehicleOptions settingsNoMotorcycle ∧
    calculatePrice settingsNoMotorcycle 5000 VehicleType.Motorcycle
      = jsRound ((settingsNoMotorcycle.base_fare_syp
          + 5000 / 1000 * settingsNoMotorcycle.per_km_fare_syp) * 1) := by
  have h := unknown_vehicle_class_skip settingsNoMotorcycle VehicleType.Motorcycle rfl
  exact ⟨h.1, h.2.1 VehicleType.Regular rfl, h.2.2 5000 (by norm_num)⟩

/-- Claim C7 counterexample: on the snapshot missing Motorcycle, the
multiplier lookup does not fail: calculatePrice prices the absent class with
the substitute multiplier 1, returning 4500 at 5000 meters (the class is
nevertheless skipped from the rendered quotes). -/
theorem unknown_vehicle_class_substitute_counterexample :
    calculatePrice settingsNoMotorcycle 5000 VehicleType.Motorcycle = 4500 ∧
    VehicleType.Motorcycle ∉ renderedVehicleOptions settingsNoMotorcycle := by
  constructor
  · simp only [calculatePrice, settingsNoMotorcycle, defaultSettings, jsRound]
    norm_num
  · intro hv
    have hpred := (List.mem_filter.1 hv).2
    simp [settingsNoMotorcycle, vehicleHasIcon] at hpred

/-- Every transition control the driver view offers targets a status reached
by an edge of the spec transition graph from the current status. -/
lemma offeredTarget_allowed (st : TripStatus) (u : UpdatableStatus)
    (ho : offeredTarget st = some u) :
    specAllowedTransition st u.toTripStatus = true := by
  cases st <;> cases u <;>
    simp_all [offeredTarget, UpdatableStatus.toTripStatus, specAllowedTransition]

/-- Claim C2 (amended): updateTripStatus itself performs no validation — it
unconditionally sets whatever status it is given on the current trip — and
illegal requests are prevented only at the UI layer: for each current status
the view renders at most one transition control, and every offered target is
an edge of the section 4.4 graph; moreover the parameter type of
updateTripStatus excludes Accepted, so a transition to Accepted (in
particular InProgress to Accepted) cannot be requested through it and a trip
in InProgress can only be asked to move to Completed. -/
theorem trip_transition_ui_guard (s : DriverViewState) (t : Trip) (u : UpdatableStatus)
    (hc : s.currentTrip = some t) (ho : offeredTarget t.status = some u) :
    specAllowedTransition t.status u.toTripStatus = true ∧
    (updateTripStatus s u).currentTrip = some { t with status := u.toTripStatus } ∧
    (∀ w : UpdatableStatus, w.toTripStatus ≠ TripStatus.accepted) ∧
    offeredTarget TripStatus.in_progress = some UpdatableStatus.completed := by
  refine ⟨offeredTarget_allowed t.status u ho, ?_, ?_, rfl⟩
  · simp [updateTripStatus, hc]
  · intro w
    cases w <;> simp [UpdatableStatus.toTripStatus]

/-- A concrete in-progress trip used by several witnesses. -/
def tripExample : Trip where
  id := "trip-1"
  customer_id := "cust-1"
  driver_id := some "drv-1"
  status := TripStatus.in_progress
  pickup_location := ⟨36, 33⟩
  dropoff_location := ⟨37, 34⟩
  pickup_address := "A"
  dropoff_address := "B"
  distance_meters := 5000
  estimated_cost := 4500
  final_cost := none
  vehicle_type := VehicleType.Regular
  created_at := "2024-01-01"
  scheduled_at := none
  completed_at := none

def driverStateInProgress : DriverViewState where
  currentTrip := some tripExample
  incomingRequest := none
  status := DriverAvailability.in_trip

/-- Claim C2 witness: the theorem at a concrete in-progress trip, whose only
offered transition is Completed. -/
theorem trip_transition_ui_guard_witness :
    specAllowedTransition tripExample.status UpdatableStatus.completed.toTripStatus = true ∧
    (updateTripStatus driverStateInProgress UpdatableStatus.completed).currentTrip
      = some { tripExample with status := UpdatableStatus.completed.toTripStatus } ∧
    (∀ w : UpdatableStatus, w.toTripStatus ≠ TripStatus.accepted) ∧
    offeredTarget TripStatus.in_progress = some UpdatableStatus.completed :=
  trip_transition_ui_guard driverStateInProgress tripExample UpdatableStatus.completed rfl rfl

def tripCompletedExample : Trip :=
  { tripExample with status := TripStatus.completed }

def driverStateCompleted : DriverViewState where
  currentTrip := some tripCompletedExample
  incomingRequest := none
  status := DriverAvailability.in_trip

/-- Claim C2 counterexample: completed to driver_arrived is not an edge of
the spec graph, yet updateTripStatus raises no failure and does not leave the
trip unchanged — it coerces the terminal trip back to driver_arrived. -/
theorem trip_transition_no_validation_counterexample :
    (updateTripStatus driverStateCompleted UpdatableStatus.driver_arrived).currentTrip
      = some { tripCompletedExample with status := TripStatus.driver_arrived } ∧
    specAllowedTransition TripStatus.completed TripStatus.driver_arrived = false ∧
    (updateTripStatus driverStateCompleted UpdatableStatus.driver_arrived).currentTrip
      ≠ driverStateCompleted.currentTrip := by
  refine ⟨rfl, rfl, ?_⟩
  decide

/-- Claim C8: after a Declined or TimedOut offer the coordinator either fails
with NoDriversAvailable (exactly when no candidates remain) or returns the
trip to Requested with no driver bound — every successful result has status
Requested and no driver, so no phantom assignment survives; and the
driver-side decline handler of the source clears only the local incoming
request, leaving the trip record and the current trip untouched. -/
theorem dispatch_decline_returns_requested (trip : Trip) (outcome : OfferOutcome)
    (remaining : List String)
    (h : outcome = OfferOutcome.declined ∨ outcome = OfferOutcome.timedOut) :
    (∀ t2 : Trip, coordinatorAfterOffer trip outcome remaining = Except.ok t2 →
        t2.status = TripStatus.requested ∧ t2.driver_id = none) ∧
    (coordinatorAfterOffer trip outcome remaining
        = Except.error DispatchError.noDriversAvailable ↔ remaining = []) ∧
    (∀ s : DriverViewState, handleDeclineRequest s = { s with incomingRequest := none }) := by
  rcases h with h | h <;> subst h <;> cases remaining <;>
    simp [coordinatorAfterOffer, handleDeclineRequest]

/-- Claim C8 witness: the theorem at a declined offer with no remaining
candidates. -/
theorem dispatch_decline_returns_requested_witness :
    (∀ t2 : Trip, coordinatorAfterOffer tripExample OfferOutcome.declined [] = Except.ok t2 →
        t2.status = TripStatus.requested ∧ t2.driver_id = none) ∧
    (coordinatorAfterOffer tripExample OfferOutcome.declined []
        = Except.error DispatchError.noDriversAvailable ↔ ([] : List String) = []) ∧
    (∀ s : DriverViewState, handleDeclineRequest s = { s with incomingRequest := none }) :=
  dispatch_decline_returns_requested tripExample OfferOutcome.declined [] (Or.inl rfl)


/-- The final checks of getRouteOSRM issue no further requests: the trace is
whatever the fallback block left. -/
lemma finishRoute_trace (response : FetchResponse RouteBody) (consumed : Bool) (tr : Trace) :
    (finishRoute response consumed tr).2 = tr := by
  unfold finishRoute
  split
  · split
    · rfl
    · split
      · split
        · rfl
        · rfl
      · rfl
  · split
    · rfl
    · split
      · split
        · rfl
        · rfl
      · rfl

/-- Characterization of a successful finishRoute: the trace is unchanged, the
response at hand is ok, its body parsed with code Ok and a first route, and
the result is that route's geometry with every coordinate pair swapped to
latitude first, plus its distance and duration. -/
lemma finishRoute_ok (response : FetchResponse RouteBody) (consumed : Bool) (tr : Trace)
    (r : RouteData) (tr2 : Trace)
    (h : finishRoute response consumed tr = (Except.ok r, tr2)) :
    tr2 = tr ∧ response.ok = true ∧
    ∃ body rt rest, response.body = some body ∧ body.code = "Ok" ∧
      body.routes = rt :: rest ∧
      r = { geometry := rt.coordinates.map (fun c => (c.2, c.1)),
            distance := rt.distance, duration := rt.duration } := by
  unfold finishRoute at h
  split at h
  · exfalso
    split at h
    · simp at h
    · split at h
      · split at h
        · simp at h
        · simp at h
      · simp at h
  · rename_i hok
    have hoktrue : response.ok = true := by
      cases hr : response.ok
      · exact absurd hr hok
      · rfl
    split at h
    · simp at h
    · rename_i data hbody
      split at h
      · rename_i hcode
        split at h
        · simp at h
        · rename_i rts rt rest hroutes
          rw [Prod.mk.injEq] at h
          obtain ⟨h1, h2⟩ := h
          rw [Except.ok.injEq] at h1
          exact ⟨h2.symm, hoktrue, data, rt, rest, hbody, hcode, hroutes, h1.symm⟩
      · simp at h

/-- The fallback block of getRouteOSRM ends in one of three shapes: no
fallback (the primary response was not a 400, or parsing showed no NoRoute
code only when the response was ok — in every case the primary response is
used fresh); fallback without retry (primary not ok, body consumed, one route
call and zero or two snap calls); or fallback with retry (second route call
at the snapped coordinates, two snap calls). -/
lemma fallbackStep_cases (env : OSRMEnv) (a b : LngLat) :
    fallbackStep env a b = (env.route a b, false, ⟨[(a, b)], []⟩) ∨
    ((env.route a b).ok = false ∧ ∃ c, (c = ([] : List LngLat) ∨ c = [a, b]) ∧
        fallbackStep env a b = (env.route a b, true, ⟨[(a, b)], c⟩)) ∨
    fallbackStep env a b
      = (env.route (snapToRoad env a) (snapToRoad env b), false,
         ⟨[(a, b), (snapToRoad env a, snapToRoad env b)], [a, b]⟩) := by
  by_cases h1 : (env.route a b).ok = false ∧ (env.route a b).status = 400
  · cases hbody : (env.route a b).body with
    | none =>
        refine Or.inr (Or.inl ⟨h1.1, [], Or.inl rfl, ?_⟩)
        simp only [fallbackStep, if_pos h1, hbody]
    | some errorData =>
        by_cases h2 : errorData.code = "NoRoute"
        · by_cases h3 : snapToRoad env a ≠ a ∨ snapToRoad env b ≠ b
          · refine Or.inr (Or.inr ?_)
            simp only [fallbackStep, if_pos h1, hbody, if_pos h2, if_pos h3]
          · refine Or.inr (Or.inl ⟨h1.1, [a, b], Or.inr rfl, ?_⟩)
            simp only [fallbackStep, if_pos h1, hbody, if_pos h2, if_neg h3]
        · refine Or.inr (Or.inl ⟨h1.1, [], Or.inl rfl, ?_⟩)
          simp only [fallbackStep, if_pos h1, hbody, if_neg h2]
  · refine Or.inl ?_
    simp only [fallbackStep, if_neg h1]

/-- Claim C6: a single getRouteOSRM invocation issues at most 2 requests to
the primary route endpoint and at most 2 requests to the nearest (snap)
endpoint, for every collaborator behavior and every coordinate pair. -/
theorem route_resolution_call_bounds (env : OSRMEnv) (a b : LngLat) :
    (getRouteOSRM env a b).2.routeCalls.length ≤ 2 ∧
    (getRouteOSRM env a b).2.nearestCalls.length ≤ 2 := by
  have htr : (getRouteOSRM env a b).2 = (fallbackStep env a b).2.2 := by
    unfold getRouteOSRM
    exact finishRoute_trace (fallbackStep env a b).1 (fallbackStep env a b).2.1
      (fallbackStep env a b).2.2
  rcases fallbackStep_cases env a b with h | ⟨_, c, hc, h⟩ | h
  · rw [htr, h]
    simp
  · rw [htr, h]
    rcases hc with rfl | rfl <;> simp
  · rw [htr, h]
    simp

/-- Claim C4 (amended): on every successful route resolution the result is
built from the body of the response to the last issued route call — the
geometry with every wire-order (lng, lat) pair normalized to (lat, lng), the
total distance in meters and the total duration in seconds — and when a
second route call was issued it carries snapToRoad of the pickup and
snapToRoad of the dropoff, so a snap that moved only the pickup retries with
the snapped pickup and the original dropoff; the returned record has no
usedFallback field (see the counterexample). -/
theorem route_success_fields (env : OSRMEnv) (a b : LngLat) (r : RouteData) (tr : Trace)
    (h : getRouteOSRM env a b = (Except.ok r, tr)) :
    ∃ p q : LngLat,
      ((tr.routeCalls = [(a, b)] ∧ p = a ∧ q = b) ∨
       (tr.routeCalls = [(a, b), (p, q)] ∧ p = snapToRoad env a ∧ q = snapToRoad env b)) ∧
      ∃ body rt rest, (env.route p q).body = some body ∧ body.code = "Ok" ∧
        body.routes = rt :: rest ∧
        r.geometry = rt.coordinates.map (fun c => (c.2, c.1)) ∧
        r.distance = rt.distance ∧ r.duration = rt.duration := by
  unfold getRouteOSRM at h
  rcases fallbackStep_cases env a b with hfb | ⟨hokf, c, hc, hfb⟩ | hfb <;> rw [hfb] at h
  · obtain ⟨htr, hok, body, rt, rest, hbody, hcode, hroutes, hr⟩ :=
      finishRoute_ok _ _ _ _ _ h
    refine ⟨a, b, Or.inl ⟨?_, rfl, rfl⟩, body, rt, rest, hbody, hcode, hroutes,
      by rw [hr], by rw [hr], by rw [hr]⟩
    rw [htr]
  · obtain ⟨_, hok, _⟩ := finishRoute_ok _ _ _ _ _ h
    rw [hokf] at hok
    exact absurd hok (by simp)
  · obtain ⟨htr, hok, body, rt, rest, hbody, hcode, hroutes, hr⟩ :=
      finishRoute_ok _ _ _ _ _ h
    refine ⟨snapToRoad env a, snapToRoad env b, Or.inr ⟨?_, rfl, rfl⟩,
      body, rt, rest, hbody, hcode, hroutes, by rw [hr], by rw [hr], by rw [hr]⟩
    rw [htr]

def coordStart : LngLat := ⟨36, 33⟩

def coordStop : LngLat := ⟨37, 34⟩

/-- The point the nearest endpoint of envFallback moves the pickup to. -/
def coordSnapped : LngLat := ⟨36, 35⟩

/-- A successful route body: code Ok, one route whose geometry is in wire
order (lng, lat). -/
def okRouteBody : RouteBody :=
  ⟨"Ok", [⟨[(36, 33), (37, 34)], 1000, 600⟩]⟩

/-- The body of a 400 NoRoute response. -/
def noRouteRespBody : RouteBody := ⟨"NoRoute", []⟩

/-- A collaborator whose primary call always succeeds. -/
def envDirect : OSRMEnv where
  route := fun _ _ => ⟨true, 200, some okRouteBody⟩
  nearest := fun p => ⟨true, 200, some ⟨"Ok", [(p.lng, p.lat)]⟩⟩

/-- The route data both envDirect and envFallback resolve to. -/
def directRouteData : RouteData := ⟨[(33, 36), (34, 37)], 1000, 600⟩

/-- A collaborator that reports NoRoute for the original pair, snaps the
pickup to a different point and the dropoff to itself, and succeeds on the
retried pair. -/
def envFallback : OSRMEnv where
  route := fun p q =>
    if p = coordStart ∧ q = coordStop then ⟨false, 400, some noRouteRespBody⟩
    else ⟨true, 200, some okRouteBody⟩
  nearest := fun p =>
    if p = coordStart then ⟨true, 200, some ⟨"Ok", [(36, 35)]⟩⟩
    else ⟨true, 200, some ⟨"Ok", [(p.lng, p.lat)]⟩⟩

/-- Claim C4 witness: the amended theorem applied to the direct success run
of envDirect. -/
theorem route_success_fields_witness :
    ∃ p q : LngLat,
      ((Trace.routeCalls ⟨[(coordStart, coordStop)], []⟩ = [(coordStart, coordStop)]
          ∧ p = coordStart ∧ q = coordStop) ∨
       (Trace.routeCalls ⟨[(coordStart, coordStop)], []⟩
          = [(coordStart, coordStop), (p, q)]
          ∧ p = snapToRoad envDirect coordStart ∧ q = snapToRoad envDirect coordStop)) ∧
      ∃ body rt rest, (envDirect.route p q).body = some body ∧ body.code = "Ok" ∧
        body.routes = rt :: rest ∧
        directRouteData.geometry = rt.coordinates.map (fun c => (c.2, c.1)) ∧
        directRouteData.distance = rt.distance ∧ directRouteData.duration = rt.duration :=
  route_success_fields envDirect coordStart coordStop directRouteData
    ⟨[(coordStart, coordStop)], []⟩ rfl

/-- Claim C4 counterexample: no function of the returned RouteData recovers
whether the snap-and-retry fallback executed — the record carries no
usedFallback field and two runs, one direct and one through the fallback,
return identical results — so the claim that the result contains a
usedFallback field that is true exactly when the fallback executed is false. -/
theorem route_no_usedFallback_counterexample :
    ¬ ∃ f : RouteData → Bool,
      ∀ (env : OSRMEnv) (a b : LngLat) (r : RouteData) (tr : Trace),
        getRouteOSRM env a b = (Except.ok r, tr) →
        f r = !tr.nearestCalls.isEmpty := by
  rintro ⟨f, hf⟩
  have h1 := hf envDirect coordStart coordStop directRouteData
    ⟨[(coordStart, coordStop)], []⟩ rfl
  have h2 := hf envFallback coordStart coordStop directRouteData
    ⟨[(coordStart, coordStop), (coordSnapped, coordStop)], [coordStart, coordStop]⟩ rfl
  simp at h1 h2
  rw [h1] at h2
  exact Bool.false_ne_true h2

/-- A collaborator that reports NoRoute for every pair and snaps every point
to exactly its own coordinates. -/
def envNoRouteIdenticalSnap : OSRMEnv where
  route := fun _ _ => ⟨false, 400, some noRouteRespBody⟩
  nearest := fun p => ⟨true, 200, some ⟨"Ok", [(p.lng, p.lat)]⟩⟩

/-- Claim C5: when the primary call reports the named NoRoute condition and
both snap lookups return coordinates identical to the originals, no retry is
issued — the trace carries exactly one route call — as the claim states; but
the invocation does not fail with the NoRouteFound error: the final check
re-reads the response body that the fallback block already consumed, so the
code rejects with the body-consumed TypeError, whose message matches neither
of the phrases the caller maps to the no-route user message. -/
theorem route_noroute_identical_snap_body_consumed :
    getRouteOSRM envNoRouteIdenticalSnap coordStart coordStop
      = (Except.error RouteError.bodyConsumed,
         ⟨[(coordStart, coordStop)], [coordStart, coordStop]⟩) ∧
    routeErrorMentionsNoRoute RouteError.bodyConsumed = false ∧
    displayedRouteMessage RouteError.bodyConsumed = msgRouteGeneric ∧
    RouteError.bodyConsumed ≠ RouteError.noRouteAfterSnapping := by
  refine ⟨rfl, rfl, rfl, ?_⟩
  decide

/-- The coordinate literal is never the empty string: it contains the comma
separator. -/
lemma coordLiteral_ne_empty (point : LngLat) : coordLiteral point ≠ "" := by
  intro h
  have hlen := congrArg String.length h
  rw [coordLiteral] at hlen
  rw [String.length_append, String.length_append] at hlen
  have hsep : (", ").length = 2 := rfl
  have hnil : ("" : String).length = 0 := rfl
  omega

/-- Claim C10: on a response that is ok at the HTTP level, a parsed body with
no display name yields the coordinate-literal string built from the point's
latitude and longitude each fixed to five decimals, and every successful
reverse geocode yields a non-empty address string (a present but empty
display name is falsy in JavaScript and also falls back to the non-empty
coordinate literal). -/
theorem reverse_geocode_fallback (response : FetchResponse GeoBody) (point : LngLat)
    (hok : response.ok = true) :
    (response.body = some { display_name := none } →
      reverseGeocodeNominatim response point = Except.ok (coordLiteral point)) ∧
    (∀ s : String, reverseGeocodeNominatim response point = Except.ok s → s ≠ "") := by
  have hnotfalse : ¬ response.ok = false := by rw [hok]; simp
  constructor
  · intro hbody
    rw [reverseGeocodeNominatim, if_neg hnotfalse, hbody]
  · intro s hs
    rw [reverseGeocodeNominatim, if_neg hnotfalse] at hs
    cases hbody : response.body with
    | none => rw [hbody] at hs; simp at hs
    | some data =>
        simp only [hbody] at hs
        cases hname : data.display_name with
        | none =>
            simp only [hname, Except.ok.injEq] at hs
            rw [← hs]
            exact coordLiteral_ne_empty point
        | some str =>
            simp only [hname] at hs
            by_cases hstr : str = ""
            · rw [if_pos hstr] at hs
              simp only [Except.ok.injEq] at hs
              rw [← hs]
              exact coordLiteral_ne_empty point
            · rw [if_neg hstr] at hs
              simp only [Except.ok.injEq] at hs
              rw [← hs]
              exact hstr

/-- A response that succeeded at the HTTP level but whose body carries no
display name. -/
def geoResponseNoName : FetchResponse GeoBody := ⟨true, 200, some ⟨none⟩⟩

def geoPointExample : LngLat := ⟨36, 33⟩

/-- Claim C10 witness: the theorem at the concrete no-display-name
response. -/
theorem reverse_geocode_fallback_witness :
    reverseGeocodeNominatim geoResponseNoName geoPointExample
      = Except.ok (coordLiteral geoPointExample) ∧
    coordLiteral geoPointExample ≠ "" := by
  have h := reverse_geocode_fallback geoResponseNoName geoPointExample rfl
  exact ⟨h.1 rfl, h.2 (coordLiteral geoPointExample) (h.1 rfl)⟩

/-- Claim C9 (amended): a completing route resolution commits its route,
distance and duration to the view state unconditionally — the code carries no
generation token, so the commit happens even when the completing invocation
is no longer the latest issued one (the hypothesis allows any pending
invocation, superseded or not). -/
theorem route_commit_unconditional (s : RouteSession) (tok : Nat) (p d : LngLat)
    (rd : RouteData) (hmem : (tok, p, d) ∈ s.pending) :
    (sessionStep s (RouteEvent.complete tok (Except.ok rd))).view.route = rd.geometry ∧
    (sessionStep s (RouteEvent.complete tok (Except.ok rd))).view.distance = rd.distance ∧
    (sessionStep s (RouteEvent.complete tok (Except.ok rd))).view.duration = rd.duration ∧
    (sessionStep s (RouteEvent.complete tok (Except.ok rd))).view.tripStatus
      = CustTripStatus.pricing := by
  have hany : s.pending.any (fun x => x.1 == tok) = true :=
    List.any_eq_true.2 ⟨(tok, p, d), hmem, by simp⟩
  simp [sessionStep, hany, applyRouteCompletion]

/-- A session whose only in-flight resolution (token 0) has been superseded:
two invocations were issued, so the latest token is 1. -/
def supersededSessionExample : RouteSession where
  view := initialCustomerRouteState
  issued := 2
  pending := [(0, coordStart, coordStop)]

def routeDataFirst : RouteData := ⟨[(33, 36)], 111, 11⟩

def routeDataSecond : RouteData := ⟨[(44, 36)], 222, 22⟩

/-- Claim C9 witness: the theorem at a superseded pending invocation — the
stale completion still commits. -/
theorem route_commit_unconditional_witness :
    (sessionStep supersededSessionExample
        (RouteEvent.complete 0 (Except.ok routeDataFirst))).view.route
      = routeDataFirst.geometry ∧
    (sessionStep supersededSessionExample
        (RouteEvent.complete 0 (Except.ok routeDataFirst))).view.distance
      = routeDataFirst.distance ∧
    (sessionStep supersededSessionExample
        (RouteEvent.complete 0 (Except.ok routeDataFirst))).view.duration
      = routeDataFirst.duration ∧
    (sessionStep supersededSessionExample
        (RouteEvent.complete 0 (Except.ok routeDataFirst))).view.tripStatus
      = CustTripStatus.pricing :=
  route_commit_unconditional supersededSessionExample 0 coordStart coordStop routeDataFirst
    (by simp [supersededSessionExample])

def coordAltPickup : LngLat := ⟨36, 44⟩

/-- A schedule in which the resolution for the first pickup completes after
the resolution for the second, newer pickup. -/
def staleOverwriteEvents : List RouteEvent :=
  [RouteEvent.invoke coordStart coordStop,
   RouteEvent.invoke coordAltPickup coordStop,
   RouteEvent.complete 1 (Except.ok routeDataSecond),
   RouteEvent.complete 0 (Except.ok routeDataFirst)]

/-- Claim C9 counterexample: under the claimed token discipline the final
state would hold the results of the latest invocation (token 1, distance
222); the code commits the stale completion of token 0 last, so the final
committed distance is 111 — an in-flight resolution superseded by a newer
pickup/dropoff pair does overwrite state with outdated results. -/
theorem stale_route_overwrite_counterexample :
    (runRouteSession initialRouteSession staleOverwriteEvents).issued = 2 ∧
    (runRouteSession initialRouteSession staleOverwriteEvents).view.distance
      = routeDataFirst.distance ∧
    routeDataFirst.distance ≠ routeDataSecond.distance := by
  refine ⟨rfl, rfl, ?_⟩
  decide
